import Mathlib

/-!
A shallow embedding of `src/horse_racing_analysis.py`.

Modelling conventions, used throughout:

* Python floats are modelled by `PFloat`: an exact rational for the finite
  values (IEEE rounding and overflow-to-infinity of arithmetic are not
  modelled; no claim depends on rounding), plus `inf`, `negInf` and `nan`.
* A pandas cell is `Option PVal`: `none` is a missing value (NaN produced by
  `read_csv` for an empty field); a present value is a string or a number.
* A `DataFrame` is a column-name list plus one association list per row
  (key = column name, value = cell), mirroring pandas' named columns.
* Python exceptions are represented with `Except String`; a `try/except`
  wrapper turns the error case into the fallback value, exactly as in the
  source.
* Console printing and the matplotlib chart are I/O: each analysis function
  returns the data it would print (messages, aggregate rows, the formatted
  accuracy string) together with the data frame object as it stands after
  the call, so that in-place mutation of the caller's frame is observable.
-/

/-- A Python/numpy double: exact rationals stand for the finite values
(rounding is not modelled), plus the two infinities and NaN. -/
inductive PFloat where
  | finite : ℚ → PFloat
  | inf : PFloat
  | negInf : PFloat
  | nan : PFloat
deriving DecidableEq, Repr

/-- Is the value a finite float? -/
def PFloat.isFinite : PFloat → Bool
  | .finite _ => true
  | _ => false

/-- Python `<=` on floats: any comparison involving NaN is false. -/
def pfLe : PFloat → PFloat → Bool
  | .nan, _ => false
  | _, .nan => false
  | .negInf, _ => true
  | .finite _, .negInf => false
  | .finite a, .finite b => decide (a ≤ b)
  | .finite _, .inf => true
  | .inf, .inf => true
  | .inf, _ => false

/-- Python `==` on floats: NaN is not equal to anything, itself included. -/
def pfEq : PFloat → PFloat → Bool
  | .finite a, .finite b => decide (a = b)
  | .inf, .inf => true
  | .negInf, .negInf => true
  | _, _ => false

/-- Float addition (used for pandas sums): NaN propagates, `inf + -inf = nan`. -/
def pfAdd : PFloat → PFloat → PFloat
  | .nan, _ => .nan
  | _, .nan => .nan
  | .finite a, .finite b => .finite (a + b)
  | .inf, .negInf => .nan
  | .negInf, .inf => .nan
  | .inf, _ => .inf
  | _, .inf => .inf
  | .negInf, _ => .negInf
  | _, .negInf => .negInf

/-- numpy/pandas true division, as in a series division or an `np.int64`
scalar division: division by zero yields ±inf or NaN (with a warning, not an
exception). Signed zero is not modelled; `x / ±inf = 0`. -/
def sdiv : PFloat → PFloat → PFloat
  | .nan, _ => .nan
  | _, .nan => .nan
  | .finite a, .finite b =>
      if b = 0 then (if a = 0 then .nan else if 0 < a then .inf else .negInf)
      else .finite (a / b)
  | .inf, .finite b => if 0 ≤ b then .inf else .negInf
  | .negInf, .finite b => if 0 ≤ b then .negInf else .inf
  | .finite _, _ => .finite 0
  | _, _ => .nan

/-- Python-level float division `a / b`: raises `ZeroDivisionError` when the
divisor is (finite) zero, otherwise behaves like IEEE division. -/
def pfDiv (a b : PFloat) : Except String PFloat :=
  match b with
  | .finite q =>
      if q = 0 then .error "ZeroDivisionError"
      else
        match a with
        | .nan => .ok .nan
        | .finite p => .ok (.finite (p / q))
        | .inf => .ok (if 0 < q then .inf else .negInf)
        | .negInf => .ok (if 0 < q then .negInf else .inf)
  | .nan => .ok .nan
  | .inf =>
      match a with
      | .finite _ => .ok (.finite 0)
      | _ => .ok .nan
  | .negInf =>
      match a with
      | .finite _ => .ok (.finite 0)
      | _ => .ok .nan

/-- Numeric value of a list of decimal digit characters. -/
def digitsVal (ds : List Char) : ℕ :=
  ds.foldl (fun a c => 10 * a + (c.toNat - 48)) 0

/-- Case-insensitive comparison of a character list with a lower-case word. -/
def lowerEq (cs : List Char) (w : List Char) : Bool :=
  cs.map Char.toLower == w

/-- Strip leading and trailing whitespace (Python `float` ignores it). -/
def trimWs (cs : List Char) : List Char :=
  ((cs.dropWhile Char.isWhitespace).reverse.dropWhile Char.isWhitespace).reverse

/-- The mantissa of a Python float literal: digits, optionally a decimal
point and more digits, at least one digit in total. Exact value as a
rational. (Digit-group underscores are not modelled.) -/
def parseMantissa (cs : List Char) : Option ℚ :=
  let ip := cs.takeWhile Char.isDigit
  let rest := cs.dropWhile Char.isDigit
  match rest with
  | [] => if ip = [] then none else some (digitsVal ip : ℚ)
  | '.' :: fr =>
      let fd := fr.takeWhile Char.isDigit
      let rest2 := fr.dropWhile Char.isDigit
      if rest2 = [] ∧ (ip ≠ [] ∨ fd ≠ []) then
        some ((digitsVal ip : ℚ) + (digitsVal fd : ℚ) / ((10 : ℚ) ^ fd.length))
      else none
  | _ => none

/-- The exponent part of a Python float literal (after `e`/`E`). -/
def parseExpPart (cs : List Char) : Option ℤ :=
  match cs with
  | '+' :: ds => if ds ≠ [] ∧ ds.all Char.isDigit then some (digitsVal ds : ℤ) else none
  | '-' :: ds => if ds ≠ [] ∧ ds.all Char.isDigit then some (-(digitsVal ds : ℤ)) else none
  | ds => if ds ≠ [] ∧ ds.all Char.isDigit then some (digitsVal ds : ℤ) else none

/-- The body of Python `float(str)` after sign handling: `inf`/`infinity`/`nan`
(case-insensitive) or a decimal literal with optional exponent. Finite values
are exact (no rounding, no overflow to infinity). -/
def pyFloatCore (cs : List Char) (neg : Bool) : Option PFloat :=
  if lowerEq cs "inf".data ∨ lowerEq cs "infinity".data then
    some (if neg then .negInf else .inf)
  else if lowerEq cs "nan".data then some .nan
  else
    let m := cs.takeWhile (fun c => ¬(c = 'e' ∨ c = 'E'))
    let r := cs.dropWhile (fun c => ¬(c = 'e' ∨ c = 'E'))
    match r with
    | [] => (parseMantissa m).map (fun q => .finite (if neg then -q else q))
    | _ :: ep =>
        match parseMantissa m, parseExpPart ep with
        | some q, some e =>
            some (.finite ((if neg then -q else q) * (10 : ℚ) ^ e))
        | _, _ => none

/-- Python `float(str)`: strip whitespace, read an optional sign, then the
body. `none` models the `ValueError` raised on malformed input. -/
def pyFloatOfChars (cs : List Char) : Option PFloat :=
  match trimWs cs with
  | '+' :: r => pyFloatCore r false
  | '-' :: r => pyFloatCore r true
  | r => pyFloatCore r false

/-- A present pandas cell value: a string or a number. -/
inductive PVal where
  | str : String → PVal
  | num : PFloat → PVal
deriving DecidableEq, Repr

/-- A pandas cell: `none` is a missing value (the NaN `read_csv` puts in an
empty field). -/
abbrev Cell := Option PVal

/-- pandas `isnull` on one cell: missing, or a float NaN. -/
def cellIsNull : Cell → Bool
  | none => true
  | some (.num .nan) => true
  | some _ => false

/-- A row: one (column name, cell) entry per column. -/
abbrev Row := List (String × Cell)

/-- The cell a row holds in a column; a column the row does not have reads
as missing. -/
def lookupCell : Row → String → Cell
  | [], _ => none
  | (k, v) :: r, c => if k = c then v else lookupCell r c

/-- `row[c] = f (row[c])`: map the cell stored under `c`, keep keys and the
other entries. -/
def applyRow (c : String) (f : Cell → Cell) : Row → Row
  | [] => []
  | (k, v) :: t => (k, if k = c then f v else v) :: applyRow c f t

/-- Remove the entries of the given columns from a row. -/
def dropRowCols (ds : List String) : Row → Row
  | [] => []
  | (k, v) :: t => if k ∈ ds then dropRowCols ds t else (k, v) :: dropRowCols ds t

/-- An in-memory table: the column list and the rows. -/
structure DataFrame where
  cols : List String
  rows : List Row
deriving DecidableEq, Repr

/-- Equality of `Except` results is decidable (used to evaluate `clean_data`
on concrete tables). -/
instance instDecEqExcept {e a : Type} [DecidableEq e] [DecidableEq a] :
    DecidableEq (Except e a)
  | .ok x, .ok y => decidable_of_iff (x = y) ⟨fun h => h ▸ rfl, Except.ok.inj⟩
  | .ok _, .error _ => isFalse Except.noConfusion
  | .error _, .ok _ => isFalse Except.noConfusion
  | .error x, .error y => decidable_of_iff (x = y) ⟨fun h => h ▸ rfl, Except.error.inj⟩

/-- Every row has exactly the frame's columns, in order (what `read_csv`
produces). -/
def RowsWF (df : DataFrame) : Prop :=
  ∀ r ∈ df.rows, r.map Prod.fst = df.cols

/-- `df[c] = df[c].apply f`: map one column's cells in place. -/
def applyCol (df : DataFrame) (c : String) (f : Cell → Cell) : DataFrame :=
  ⟨df.cols, df.rows.map (applyRow c f)⟩

/-- `df.drop(columns=ds)`: remove the listed columns. -/
def dropColumns (df : DataFrame) (ds : List String) : DataFrame :=
  ⟨df.cols.filter (fun c => decide (c ∉ ds)), df.rows.map (dropRowCols ds)⟩

/-- `df.isnull().sum()[c]`: how many rows are missing column `c`. -/
def missingCount (df : DataFrame) (c : String) : ℕ :=
  df.rows.countP (fun r => cellIsNull (lookupCell r c))

/-- `df.dropna(subset=cs)`: keep the rows that are non-null in every listed
column. -/
def dropnaSubset (df : DataFrame) (cs : List String) : DataFrame :=
  ⟨df.cols, df.rows.filter (fun r => cs.all (fun c => !cellIsNull (lookupCell r c)))⟩

/-- Split a character list at every occurrence of `sep` (Python
`str.split(sep)` for a one-character separator: the empty string gives
`[""]`, separators at the ends give empty parts). -/
def splitOnChar (sep : Char) : List Char → List (List Char)
  | [] => [[]]
  | c :: cs =>
      match splitOnChar sep cs, decide (c = sep) with
      | r, true => [] :: r
      | [], false => [[c]]
      | h :: t, false => (c :: h) :: t

/-- Up to `fuel` decimal digits of a rational in `[0, 1)`; stops early when
the expansion terminates. -/
def fracDigits : ℕ → ℚ → List Char
  | 0, _ => []
  | fuel + 1, q =>
      if q = 0 then []
      else
        let q10 := q * 10
        let d := q10.floor
        Char.ofNat (48 + d.toNat) :: fracDigits fuel (q10 - (d : ℚ))

/-- Python `str()` of a finite float, approximated: sign, integer part, a
decimal point, and the fractional digits (`'.0'` for integers). The 17-digit
repr shortening of doubles is not modelled; no claim depends on this
rendering. -/
def decimalRepr (q : ℚ) : String :=
  let sgn := if q < 0 then "-" else ""
  let aq := |q|
  let ip := aq.floor.toNat
  let ds := fracDigits 20 (aq - (aq.floor : ℚ))
  sgn ++ toString ip ++ "." ++ (if ds = [] then "0" else String.mk ds)

/-- Python `str()` of a float value (`str(float('nan')) = 'nan'`, …). -/
def pfToStr : PFloat → String
  | .finite q => decimalRepr q
  | .inf => "inf"
  | .negInf => "-inf"
  | .nan => "nan"

/-- The lower-case three-letter month abbreviations `strptime`'s `%b`
matches, in order. -/
def monthAbbrevs : List (List Char) :=
  ["jan".data, "feb".data, "mar".data, "apr".data, "may".data, "jun".data,
   "jul".data, "aug".data, "sep".data, "oct".data, "nov".data, "dec".data]

/-- `%b`: a month abbreviation, case-insensitive, giving the month number. -/
def parseMonth (cs : List Char) : Option ℕ :=
  (monthAbbrevs.findIdx? (fun m => cs.map Char.toLower == m)).map (· + 1)

/-- `%d`: one or two digits with value 1–31 (also a space then one digit
1–9); `'0'` and `'00'` do not match. -/
def parseDay : List Char → Option ℕ
  | [c] =>
      if c.isDigit ∧ 1 ≤ c.toNat - 48 then some (c.toNat - 48) else none
  | [' ', c] =>
      if c.isDigit ∧ 1 ≤ c.toNat - 48 then some (c.toNat - 48) else none
  | [c, d] =>
      let v := 10 * (c.toNat - 48) + (d.toNat - 48)
      if c.isDigit ∧ d.isDigit ∧ 1 ≤ v ∧ v ≤ 31 then some v else none
  | _ => none

/-- Days of each month in 1900 (`strptime`'s default year, not a leap year):
`datetime.strptime` rejects e.g. `'31-Feb'` with a `ValueError`. -/
def daysInMonth1900 (m : ℕ) : ℕ :=
  [31, 28, 31, 30, 31, 30, 31, 31, 30, 31, 30, 31].getD (m - 1) 0

/-- `datetime.strptime(value, '%d-%b')`: day digits, a literal `'-'`, a month
abbreviation, and the day must exist in that month. `none` models the
`ValueError` on any mismatch. -/
def parseDM (cs : List Char) : Option (ℕ × ℕ) :=
  match splitOnChar '-' cs with
  | [d, m] =>
      match parseDay d, parseMonth m with
      | some dv, some mv => if dv ≤ daysInMonth1900 mv then some (dv, mv) else none
      | _, _ => none
  | _ => none

/-- The string case of `convert_dates_to_odds`: on a `'%d-%b'` match return
`f"{day}/{month}"`, otherwise the input unchanged. -/
def convDatesStr (s : String) : String :=
  match parseDM s.data with
  | some dm => toString dm.1 ++ "/" ++ toString dm.2
  | none => s

/-- `convert_dates_to_odds(value)`: `strptime` then reformat; any exception
(parse failure, or the `TypeError` on a non-string — in particular the NaN
of a missing cell) falls back to `str(value)`. A missing cell therefore
comes back as the literal string `'nan'`. -/
def convert_dates_to_odds : Cell → Cell
  | some (.str s) => some (.str (convDatesStr s))
  | some (.num f) => some (.str (pfToStr f))
  | none => some (.str "nan")

/-- The `try` body of `string_odds_to_float` on a string: split on `'/'`,
require exactly two parts (else the unpacking `ValueError`), parse both with
`float` (else `ValueError`), divide (possibly `ZeroDivisionError`). -/
def sofBody (s : String) : Except String PFloat :=
  match splitOnChar '/' s.data with
  | [a, b] =>
      match pyFloatOfChars a, pyFloatOfChars b with
      | some x, some y => pfDiv x y
      | _, _ => .error "ValueError"
  | _ => .error "ValueError"

/-- `string_odds_to_float(value)`: the `try` body with every exception turned
into `None` — a non-string value (`.split` raises `AttributeError`) included. -/
def string_odds_to_float : Cell → Option PFloat
  | some (.str s) =>
      match sofBody s with
      | .ok f => some f
      | .error _ => none
  | _ => none

/-- Both odds columns converted, in the source's order: lines 12–13 of
`clean_data` (these assignments also mutate the caller's frame in place). -/
def convertOddsCols (df : DataFrame) : DataFrame :=
  applyCol (applyCol df "ForecastPrice" convert_dates_to_odds)
    "StartingPrice" convert_dates_to_odds

/-- `columns_to_drop`: the columns where every row is missing (missing count
computed after the odds conversion). -/
def cleanDrop (df1 : DataFrame) : List String :=
  df1.cols.filter (fun c => decide (missingCount df1 c = df1.rows.length))

/-- `columns_to_consider`: the columns with fewer than 205 missing values
(count computed after the odds conversion, before dropping). -/
def cleanConsider (df1 : DataFrame) : List String :=
  df1.cols.filter (fun c => decide (missingCount df1 c < 205))

/-- The frame after line 20: odds columns converted, all-missing columns
dropped. -/
def cleanDf2 (df : DataFrame) : DataFrame :=
  dropColumns (convertOddsCols df) (cleanDrop (convertOddsCols df))

/-- `clean_data(df)`: convert the two odds columns, drop the all-missing
columns, then `dropna` on the columns with fewer than 205 missing values.
Reading a missing odds column raises `KeyError`, and so does `dropna` when a
subset column was just dropped (a column counted fully missing and below the
threshold). The dropped-column/row `print`s carry no data the claims need. -/
def clean_data (df : DataFrame) : Except String DataFrame :=
  if "ForecastPrice" ∈ df.cols ∧ "StartingPrice" ∈ df.cols then
    if (cleanConsider (convertOddsCols df)).all (fun c => decide (c ∈ (cleanDf2 df).cols)) then
      .ok (dropnaSubset (cleanDf2 df) (cleanConsider (convertOddsCols df)))
    else .error "KeyError: dropna subset column not in frame"
  else .error "KeyError: odds column not in frame"

/-- A cell read as a float for numeric aggregation: a missing cell is NaN; a
string cell would make Python's `sum` raise and is likewise out of the
numeric claims' scope, modelled as NaN. -/
def cellToF : Cell → PFloat
  | some (.num f) => f
  | some (.str _) => .nan
  | none => .nan

/-- Python's builtin `sum` over numeric values (starts from 0; a NaN term
makes the sum NaN). -/
def pfSumList (l : List PFloat) : PFloat :=
  l.foldl pfAdd (.finite 0)

/-- pandas `'sum'` aggregation: NaN terms are skipped, the empty sum is 0. -/
def pfSumSkipNa (l : List PFloat) : PFloat :=
  pfSumList (l.filter (fun x => decide (x ≠ .nan)))

/-- First occurrences of each distinct element, in order of appearance. -/
def distinctList {α : Type} [DecidableEq α] (l : List α) : List α :=
  l.foldl (fun acc x => if x ∈ acc then acc else acc ++ [x]) []

/-- Stable insertion into a list sorted by `le`: the new element goes before
the first element it is `le` to, so earlier elements win ties. -/
def sinsert {α : Type} (le : α → α → Bool) (x : α) : List α → List α
  | [] => [x]
  | y :: ys => if le x y then x :: y :: ys else y :: sinsert le x ys

/-- Stable insertion sort (pandas' `sort_values` uses an unstable quicksort;
its tie order is unspecified, and no claim depends on tie order). -/
def ssort {α : Type} (le : α → α → Bool) : List α → List α
  | [] => []
  | x :: xs => sinsert le x (ssort le xs)

/-- Group-key order on cell values: the total order pandas sorts group keys
in. Mixed numeric/string keys would raise in pandas and are ordered
arbitrarily here (no claim mixes key types). -/
def pvalLeB : PVal → PVal → Bool
  | .num a, .num b => pfLe a b
  | .str a, .str b => decide (a ≤ b)
  | .num _, .str _ => true
  | .str _, .num _ => false

/-- `df.groupby([c])`'s group keys: the distinct non-null values of column
`c`, sorted ascending (`groupby` drops null keys and sorts by default). -/
def groupKeys (df : DataFrame) (c : String) : List PVal :=
  ssort pvalLeB
    (distinctList ((df.rows.filterMap (fun r => lookupCell r c)).filter
      (fun v => !cellIsNull (some v))))

/-- The rows of one group. -/
def groupRows (df : DataFrame) (c : String) (k : PVal) : List Row :=
  df.rows.filter (fun r => decide (lookupCell r c = some k))

/-- `'nunique'` over a list of cells: the number of distinct non-null
values. -/
def nuniqueCount (cells : List Cell) : ℕ :=
  (distinctList ((cells.filterMap id).filter (fun v => !cellIsNull (some v)))).length

/-- `Series.max()` with pandas' default `skipna`: NaN entries are ignored,
the empty maximum is NaN. -/
def maxSkipNan (l : List PFloat) : PFloat :=
  match l.filter (fun x => decide (x ≠ .nan)) with
  | [] => .nan
  | x :: xs => xs.foldl (fun a b => if pfLe a b then b else a) x

/-- `Series.min()` with pandas' default `skipna`. -/
def minSkipNan (l : List PFloat) : PFloat :=
  match l.filter (fun x => decide (x ≠ .nan)) with
  | [] => .nan
  | x :: xs => xs.foldl (fun a b => if pfLe b a then b else a) x

/-- One reported group of `win_data`: key, `ProportionalWins`, `TotalRaces`. -/
abbrev WinRow := PVal × PFloat × ℕ

/-- What a `win_data` call shows on the console: an early-return message, or
the four reported tables (best / top N / worst / bottom N). -/
inductive WinOut where
  | earlyReturn (msg : String)
  | report (best topX worst bottomX : List WinRow)
deriving DecidableEq, Repr

/-- `valid_win_data_columns`. -/
def valid_win_data_columns : List String :=
  ["HorseID", "JockeyID", "OwnerID", "TrainerID",
   "DamID", "SireID", "DamSireID", "Sex", "Colour"]

/-- Ascending by `TotalRaces`. -/
def leRaces (a b : WinRow) : Bool := decide (a.2.2 ≤ b.2.2)

/-- Descending by `TotalRaces`. -/
def geRaces (a b : WinRow) : Bool := decide (b.2.2 ≤ a.2.2)

/-- Ascending by `ProportionalWins` (used on NaN-free lists). -/
def lePW (a b : WinRow) : Bool := pfLe a.2.1 b.2.1

/-- Descending by `ProportionalWins` (used on NaN-free lists). -/
def gePW (a b : WinRow) : Bool := pfLe b.2.1 a.2.1

/-- `nlargest(n, 'ProportionalWins')`: drop NaN, stable-sort descending (so
ties keep their current order, pandas' `keep='first'`), take `n`. -/
def nlargestPW (n : ℕ) (l : List WinRow) : List WinRow :=
  (ssort gePW (l.filter (fun t => decide (t.2.1 ≠ .nan)))).take n

/-- `nsmallest(n, 'ProportionalWins')`. -/
def nsmallestPW (n : ℕ) (l : List WinRow) : List WinRow :=
  (ssort lePW (l.filter (fun t => decide (t.2.1 ≠ .nan)))).take n

/-- The aggregation part of `win_data` (lines 72–98): per group key, the
sum of `Won` (`agg({'Won': sum})` hands the builtin `sum` to pandas'
cython skipna sum) and the `'nunique'` of `RaceID`, the race-count filter,
and the `ProportionalWins` series. -/
def winAggRows (df : DataFrame) (column_name : String) (race_threshold : ℤ) :
    List WinRow :=
  ((groupKeys df column_name).map (fun k =>
      (k, pfSumSkipNa ((groupRows df column_name k).map (fun r => cellToF (lookupCell r "Won"))),
        nuniqueCount ((groupRows df column_name k).map (fun r => lookupCell r "RaceID"))))
    |>.filter (fun t => decide (race_threshold ≤ (t.2.2 : ℤ)))
    |>.map (fun t => (t.1, sdiv t.2.1 (.finite (t.2.2 : ℚ)), t.2.2)))

/-- The console output of `win_data(df, column_name, race_threshold,
top_bottom_threshold)`. -/
def winOut (df : DataFrame) (column_name : String)
    (race_threshold top_bottom_threshold : ℤ) : WinOut :=
  if column_name ∉ valid_win_data_columns then
    if column_name ∈ df.cols then
      .earlyReturn s!"Unable to calculate win data '{column_name}' column."
    else
      .earlyReturn s!"Column '{column_name}' not present in dataframe."
  else
    let prop := winAggRows df column_name race_threshold
    let sortedA := ssort leRaces prop
    let best := sortedA.filter (fun t => pfEq t.2.1 (maxSkipNan (sortedA.map (fun u => u.2.1))))
    let topX := nlargestPW top_bottom_threshold.toNat sortedA
    let sortedD := ssort geRaces sortedA
    let worst := sortedD.filter (fun t => pfEq t.2.1 (minSkipNan (sortedD.map (fun u => u.2.1))))
    let bottomX := nsmallestPW top_bottom_threshold.toNat sortedD
    .report best topX worst bottomX

/-- `win_data`: reads `df` only (no assignment into it in the source), so
the caller's frame comes back unchanged next to the console output. -/
def win_data (df : DataFrame) (column_name : String)
    (race_threshold top_bottom_threshold : ℤ) : DataFrame × WinOut :=
  (df, winOut df column_name race_threshold top_bottom_threshold)

/-- One bar of `plot_bar_wins`: column value, `TotalWins`, `TotalHorses`,
`WeightedAverage`. -/
abbrev PlotRow := PVal × PFloat × ℕ × PFloat

/-- What a `plot_bar_wins` call produces: an early-return message, or the
per-bucket aggregates it draws (the chart itself and the `linregress`
significance verdict are rendering of these buckets, outside the
embedding; no claim touches them). -/
inductive PlotOut where
  | earlyReturn (msg : String)
  | plotted (buckets : List PlotRow)
deriving DecidableEq, Repr

/-- The console/chart output of `plot_bar_wins(df, column_name)`. Note the
source's guard branches: `"Unable to plot"` is printed when the column is
NOT in the frame, `"not present"` when it IS (lines 110–115). -/
def plotOut (df : DataFrame) (column_name : String) : PlotOut :=
  if column_name ≠ "WeightValue" ∧ column_name ≠ "Age" then
    if column_name ∉ df.cols then
      .earlyReturn s!"Unable to plot chart for '{column_name}' column."
    else
      .earlyReturn s!"Column '{column_name}' not present in dataframe."
  else
    .plotted ((groupKeys df column_name).map (fun k =>
      let won := (groupRows df column_name k).map (fun r => lookupCell r "Won")
      let s := pfSumSkipNa (won.map cellToF)
      let n := won.countP (fun c => !cellIsNull c)
      (k, s, n, sdiv s (.finite (n : ℚ)))))

/-- `plot_bar_wins`: reads `df` only, so the caller's frame comes back
unchanged. -/
def plot_bar_wins (df : DataFrame) (column_name : String) : DataFrame × PlotOut :=
  (df, plotOut df column_name)

/-- Round to the nearest integer, ties to even (Python's float formatting
rounds the double's value; exactly-half ties go to even). -/
def roundHalfEven (q : ℚ) : ℤ :=
  let f := q.floor
  let r := q - (f : ℚ)
  if r < 1 / 2 then f
  else if 1 / 2 < r then f + 1
  else if f % 2 = 0 then f else f + 1

/-- `f"{p:.2%}"`: the value times 100, two decimal places, a `%` sign;
`'nan%'`/`'inf%'` for the non-finite values. -/
def formatPct : PFloat → String
  | .nan => "nan%"
  | .inf => "inf%"
  | .negInf => "-inf%"
  | .finite q =>
      let n := roundHalfEven (q * 10000)
      let sgn := if n < 0 then "-" else ""
      let m := n.natAbs
      let frac := m % 100
      let fracStr := if frac < 10 then "0" ++ toString frac else toString frac
      sgn ++ toString (m / 100) ++ "." ++ fracStr ++ "%"

/-- `race_odds[c + '_x'] <= race_odds[c + '_y']` on one pair of a float64
column: float `<=`, false as soon as a missing value (the NaN pandas stores
for a `None` once at least one float is present in the column) is involved.
The object-dtype case — every converted value `None`, where this comparison
raises `TypeError` in the source — is `accTypeError` below and never
reaches this function. -/
def cellLe (a b : Cell) : Bool :=
  match a, b with
  | some (.num x), some (.num y) => pfLe x y
  | _, _ => false

/-- `df['Won'] == 1` on one cell. -/
def wonIsOne (r : Row) : Bool :=
  match lookupCell r "Won" with
  | some (.num f) => pfEq f (.finite 1)
  | _ => false

/-- The cell `calculate_accuracy` stores back into the odds column: the
`string_odds_to_float` result as a float cell, `None` as a missing value
(pandas holds it as NaN in the resulting float column). -/
def oddsCellConv (v : Cell) : Cell :=
  (string_odds_to_float v).map PVal.num

/-- The `(winner, runner)` odds pairs of the `pd.merge` on `RaceID` (line
156): every `Won == 1` row against every row with an equal `RaceID` key —
itself included. pandas matches null merge keys with each other, as plain
cell equality does here. Order within the list does not matter to any
count. -/
def accPairs (df2 : DataFrame) (c : String) : List (Cell × Cell) :=
  (df2.rows.filter wonIsOne).flatMap (fun w =>
    df2.rows.filterMap (fun r =>
      if lookupCell w "RaceID" = lookupCell r "RaceID" then
        some (lookupCell w c, lookupCell r c)
      else none))

/-- The `string_odds_to_float` image of the whole odds column, in row
order: what line 152's `apply` produces, before pandas infers the result
dtype. -/
def convertedOdds (df : DataFrame) (c : String) : List (Option PFloat) :=
  df.rows.map (fun r => string_odds_to_float (lookupCell r c))

/-- Does line 162 raise `TypeError`? When every `apply` result is `None`,
pandas keeps the column as object dtype holding `None` (it converts to
float64 with NaN only when at least one float is present), and the `<=`
comparison of two such columns raises on the first element — so exactly
when the column is nonempty, all-`None`, and the merge produced at least
one pair to compare. -/
def accTypeError (df : DataFrame) (c : String) : Bool :=
  decide (convertedOdds df c ≠ []) &&
  (convertedOdds df c).all (fun v => decide (v = none)) &&
  decide (accPairs (applyCol df c oddsCellConv) c ≠ [])

/-- What a `calculate_accuracy` call produces: an early-return message, an
exception that propagates out of the call (a `KeyError` on a missing column
read, or the object-dtype comparison `TypeError`), or the printed accuracy
data: the correct-pair count, the total, the accuracy value (an `np.int64`
division: `0/0` is NaN, not an error), and the formatted percentage line. -/
inductive AccOut where
  | earlyReturn (msg : String)
  | raised (err : String)
  | accuracy (correct total : ℕ) (acc : PFloat) (printed : String)
deriving DecidableEq, Repr

/-- The printed accuracy line, when the call printed one. -/
def AccOut.printedLine : AccOut → Option String
  | .accuracy _ _ _ p => some p
  | _ => none

/-- The accuracy computation on the already-converted frame (lines 155–168),
once none of the exception paths fires. -/
def accOut (df2 : DataFrame) (c : String) : AccOut :=
  let pairs := accPairs df2 c
  let correct := pairs.countP (fun p => cellLe p.1 p.2)
  let total := pairs.length
  let acc := sdiv (.finite (correct : ℚ)) (.finite (total : ℚ))
  .accuracy correct total acc (formatPct acc)

/-- Lines 152–168 after the guard: line 152's read raises `KeyError` when
the odds column is absent (before the write); line 155's `df['Won']` and the
`[['RaceID', 'HorseID', column_name]]` selections raise `KeyError` when
those columns are absent; the comparison at line 162 raises `TypeError` on
an all-`None` object-dtype column with at least one pair; otherwise the
accuracy is computed and printed. -/
def accMainOut (df : DataFrame) (column_name : String) : AccOut :=
  if column_name ∉ df.cols then
    .raised "KeyError: odds column not in frame"
  else if "Won" ∉ df.cols then
    .raised "KeyError: Won not in frame"
  else if "RaceID" ∉ df.cols ∨ "HorseID" ∉ df.cols then
    .raised "KeyError: RaceID or HorseID not in frame"
  else if accTypeError df column_name then
    .raised "TypeError: object-dtype None comparison"
  else
    accOut (applyCol df column_name oddsCellConv) column_name

/-- `calculate_accuracy`: after the guard it assigns the converted column
back into the caller's frame (line 152) — the returned frame is that
mutated frame — then joins winners to runners and prints the accuracy, or
raises. When the odds column is absent the `KeyError` fires on the read,
before the write, so the caller's frame is unmutated; a frame without that
column holds no cell under the name, so the vacuous `applyCol` returned
here is that unmutated frame. -/
def calculate_accuracy (df : DataFrame) (column_name : String) : DataFrame × AccOut :=
  if column_name ≠ "ForecastPrice" ∧ column_name ≠ "StartingPrice" then
    if column_name ∈ df.cols then
      (df, .earlyReturn s!"Unable to calculate price accuracy for '{column_name}' column.")
    else
      (df, .earlyReturn s!"Column '{column_name}' not present in dataframe.")
  else
    (applyCol df column_name oddsCellConv, accMainOut df column_name)

/-! ### Concrete inputs used by the claim theorems -/

/-- A present string cell. -/
def strC (s : String) : Cell := some (.str s)

/-- A present numeric cell. -/
def numC (q : ℚ) : Cell := some (.num (.finite q))

/-- A one-row table whose only column is `Sex` (a supported `win_data`
grouping column, not a `plot_bar_wins` column). -/
def dfC1 : DataFrame := ⟨["Sex"], [[("Sex", strC "M")]]⟩

/-- A race-entry row with the three columns `win_data` reads. -/
def winRow (rid sex : String) (w : ℚ) : Row :=
  [("RaceID", strC rid), ("Sex", strC sex), ("Won", numC w)]

/-- The spec's Win Aggregator example: group `A` with 3 wins over 10
distinct races, group `B` with 1 win over 2 distinct races. -/
def dfC7 : DataFrame :=
  ⟨["RaceID", "Sex", "Won"],
   [winRow "r01" "A" 1, winRow "r02" "A" 1, winRow "r03" "A" 1,
    winRow "r04" "A" 0, winRow "r05" "A" 0, winRow "r06" "A" 0,
    winRow "r07" "A" 0, winRow "r08" "A" 0, winRow "r09" "A" 0,
    winRow "r10" "A" 0, winRow "r11" "B" 1, winRow "r12" "B" 0]⟩

/-- A race-entry row with the columns `calculate_accuracy` reads. -/
def accRow (rid hid : String) (w : ℚ) (fp : String) : Row :=
  [("RaceID", strC rid), ("HorseID", strC hid), ("Won", numC w),
   ("ForecastPrice", strC fp)]

/-- The spec's Accuracy Evaluator example: two races of two horses; in race
1 the winner's odds (0.5) are below the loser's (2.0), in race 2 above
(3.0 vs 1.0). -/
def dfC2 : DataFrame :=
  ⟨["RaceID", "HorseID", "Won", "ForecastPrice"],
   [accRow "r1" "h1" 1 "1/2", accRow "r1" "h2" 0 "2/1",
    accRow "r2" "h3" 1 "3/1", accRow "r2" "h4" 0 "1/1"]⟩

/-- A one-row winning table whose odds cell is the string `'nan'` (exactly
what `clean_data` stores for a missing odds value): every converted value
is `None`. -/
def dfC2x : DataFrame :=
  ⟨["RaceID", "HorseID", "Won", "ForecastPrice"], [accRow "r1" "h1" 1 "nan"]⟩

/-- A one-row table with a fully missing `ForecastPrice` column. -/
def dfC3 : DataFrame :=
  ⟨["RaceID", "ForecastPrice", "StartingPrice"],
   [[("RaceID", strC "1"), ("ForecastPrice", none), ("StartingPrice", strC "2/1")]]⟩

/-- A one-row table with a parseable `ForecastPrice`. -/
def dfC4 : DataFrame :=
  ⟨["RaceID", "HorseID", "Won", "ForecastPrice"], [accRow "r1" "h1" 1 "1/2"]⟩

/-- A table whose single entry did not win: no `Won == 1` rows, so the
accuracy join produces zero pairs. -/
def dfC5 : DataFrame :=
  ⟨["RaceID", "HorseID", "Won", "ForecastPrice"], [accRow "r1" "h1" 0 "1/2"]⟩

/-- A one-row table with fewer than 205 rows and a fully missing
`ForecastPrice` column (the situation claim C9 quantifies over). -/
def dfC9 : DataFrame :=
  ⟨["RaceID", "ForecastPrice", "StartingPrice"],
   [[("RaceID", strC "1"), ("ForecastPrice", none), ("StartingPrice", strC "2/1")]]⟩

/-- A one-row table with a fully missing non-odds column `Notes`: the
`dropna` subset names the dropped column and `clean_data` raises. -/
def dfC9w : DataFrame :=
  ⟨["RaceID", "ForecastPrice", "StartingPrice", "Notes"],
   [[("RaceID", strC "1"), ("ForecastPrice", strC "1/2"),
     ("StartingPrice", strC "2/1"), ("Notes", none)]]⟩

/-- Two rows: the first is missing both `RaceID` and `ForecastPrice`, the
second is complete. Cleaning drops the first row — because of `RaceID`,
though its odds were missing too. -/
def dfC10 : DataFrame :=
  ⟨["RaceID", "ForecastPrice", "StartingPrice"],
   [[("RaceID", none), ("ForecastPrice", none), ("StartingPrice", strC "1/2")],
    [("RaceID", strC "1"), ("ForecastPrice", strC "1/2"), ("StartingPrice", strC "1/2")]]⟩

/-- A two-row table with one originally missing `ForecastPrice` and no other
missing data: the row survives cleaning with the string `'nan'` in it. -/
def dfC10w : DataFrame :=
  ⟨["RaceID", "ForecastPrice", "StartingPrice"],
   [[("RaceID", strC "1"), ("ForecastPrice", none), ("StartingPrice", strC "1/2")],
    [("RaceID", strC "2"), ("ForecastPrice", strC "3/1"), ("StartingPrice", strC "1/2")]]⟩

/-- A small cleanable table used to witness the cleaning invariants: a
partially missing considered column (`RaceID`) causes one row drop. -/
def dfC3w : DataFrame :=
  ⟨["RaceID", "ForecastPrice", "StartingPrice"],
   [[("RaceID", strC "1"), ("ForecastPrice", strC "1/2"), ("StartingPrice", strC "2/1")],
    [("RaceID", none), ("ForecastPrice", strC "1/1"), ("StartingPrice", strC "1/1")]]⟩

/-- What `clean_data` returns on `dfC3w`: the second row (missing `RaceID`)
is dropped. -/
def cleanedC3w : DataFrame :=
  ⟨["RaceID", "ForecastPrice", "StartingPrice"],
   [[("RaceID", strC "1"), ("ForecastPrice", strC "1/2"), ("StartingPrice", strC "2/1")]]⟩

/-! ### Spec-side definitions for the Accuracy Evaluator claim

These follow the claim's words ("joins the rows having `Won = 1` back onto
all rows of the same `RaceID` so that each winner is paired with every
runner in its race including itself"), to be compared with the embedding of
the merge in `calculate_accuracy`. -/

/-- The rows having `Won = 1`. -/
def specWinners (df2 : DataFrame) : List Row :=
  df2.rows.filter wonIsOne

/-- Two rows belong to the same race. -/
def specSameRace (w r : Row) : Bool :=
  decide (lookupCell w "RaceID" = lookupCell r "RaceID")

/-- Each winner paired with every runner of its race (itself included): the
pair holds the winner's and the runner's converted odds. -/
def specPairs (df2 : DataFrame) (c : String) : List (Cell × Cell) :=
  (specWinners df2).flatMap (fun w =>
    (df2.rows.filter (specSameRace w)).map (fun r => (lookupCell w c, lookupCell r c)))

/-- The pairs where the winner's converted value is less than or equal to
the compared horse's converted value. -/
def specCorrect (df2 : DataFrame) (c : String) : ℕ :=
  (specPairs df2 c).countP (fun p => cellLe p.1 p.2)

/-! ### Helper lemmas -/

theorem keys_applyRow (c : String) (f : Cell → Cell) (r : Row) :
    (applyRow c f r).map Prod.fst = r.map Prod.fst := by
  induction r with
  | nil => rfl
  | cons p t ih =>
      obtain ⟨k, v⟩ := p
      simp [applyRow, ih]

theorem lookup_applyRow_self (c : String) (f : Cell → Cell) (r : Row)
    (h : c ∈ r.map Prod.fst) :
    lookupCell (applyRow c f r) c = f (lookupCell r c) := by
  induction r with
  | nil => simp at h
  | cons p t ih =>
      obtain ⟨k, v⟩ := p
      simp only [applyRow, lookupCell]
      by_cases hp : k = c
      · rw [if_pos hp, if_pos hp, if_pos hp]
      · rw [if_neg hp, if_neg hp]
        simp only [List.map_cons, List.mem_cons] at h
        rcases h with h | h
        · exact absurd h.symm hp
        · exact ih h

theorem lookup_applyRow_ne (c c' : String) (f : Cell → Cell) (r : Row)
    (h : c' ≠ c) :
    lookupCell (applyRow c f r) c' = lookupCell r c' := by
  induction r with
  | nil => rfl
  | cons p t ih =>
      obtain ⟨k, v⟩ := p
      simp only [applyRow, lookupCell]
      by_cases hk : k = c'
      · have hkc : ¬k = c := fun hh => h (by rw [← hk, hh])
        rw [if_pos hk, if_pos hk, if_neg hkc]
      · rw [if_neg hk, if_neg hk]
        exact ih

theorem lookup_dropRowCols (ds : List String) (c : String) (r : Row)
    (h : c ∉ ds) :
    lookupCell (dropRowCols ds r) c = lookupCell r c := by
  induction r with
  | nil => rfl
  | cons p t ih =>
      obtain ⟨k, v⟩ := p
      by_cases hd : k ∈ ds
      · have hkc : ¬k = c := fun hh => h (hh ▸ hd)
        simp only [dropRowCols, if_pos hd, lookupCell, if_neg hkc]
        exact ih
      · simp only [dropRowCols, if_neg hd, lookupCell]
        by_cases hc : k = c
        · rw [if_pos hc, if_pos hc]
        · rw [if_neg hc, if_neg hc]
          exact ih

theorem convert_not_null (v : Cell) : cellIsNull (convert_dates_to_odds v) = false := by
  match v with
  | none => rfl
  | some (.str s) => rfl
  | some (.num f) => rfl

theorem splitOnChar_no_sep (sep : Char) (l : List Char) (h : sep ∉ l) :
    splitOnChar sep l = [l] := by
  induction l with
  | nil => rfl
  | cons c t ih =>
      simp only [List.mem_cons, not_or] at h
      have hc : decide (c = sep) = false :=
        decide_eq_false (fun hh => h.1 hh.symm)
      have ht := ih h.2
      simp [splitOnChar, ht, hc]

theorem filterMap_if_eq_map_filter {α β : Type} (p : α → Bool) (g : α → β)
    (l : List α) :
    l.filterMap (fun a => if p a then some (g a) else none) =
      (l.filter p).map g := by
  induction l with
  | nil => rfl
  | cons x t ih =>
      by_cases h : p x <;> simp [List.filterMap_cons, List.filter_cons, h, ih]

/-- A Prop-condition variant of `filterMap`-of-`if` as `map` over `filter`,
matching the shape of the merge in `calculate_accuracy`. -/
theorem filterMap_ite_eq_map_filter {α β : Type} (P : α → Prop) [DecidablePred P]
    (g : α → β) (l : List α) :
    l.filterMap (fun a => if P a then some (g a) else none) =
      (l.filter (fun a => decide (P a))).map g := by
  induction l with
  | nil => rfl
  | cons x t ih =>
      by_cases h : P x <;> simp [List.filterMap_cons, List.filter_cons, h, ih]

/-! ### Claim theorems -/

/-- C1: for a column that is present but unsupported, `win_data` and
`calculate_accuracy` print the "unable to calculate" message as the claim
says — but `plot_bar_wins`'s guard branches are swapped: on the present,
unsupported column `Sex` it prints "Column 'Sex' not present in dataframe."
(and it would print "Unable to plot" exactly when the column is absent). -/
theorem c1_plot_guard_swapped :
    (plot_bar_wins dfC1 "Sex").2 =
      PlotOut.earlyReturn "Column 'Sex' not present in dataframe." ∧
    "Sex" ∈ dfC1.cols ∧
    (calculate_accuracy dfC1 "Sex").2 =
      AccOut.earlyReturn "Unable to calculate price accuracy for 'Sex' column." := by
  with_unfolding_all decide

/-- C4 counterexample: `calculate_accuracy` does not leave the table it is
passed unchanged — on a supported column it overwrites that column with the
float conversion (line 152), so the frame it hands back differs from the
input. -/
theorem c4_accuracy_mutates_input :
    (calculate_accuracy dfC4 "ForecastPrice").1 ≠ dfC4 := by
  with_unfolding_all decide

/-- C4 (amended): `win_data` and `plot_bar_wins` leave the table unchanged;
`calculate_accuracy` on a supported odds column mutates the passed table,
replacing that column by its `string_odds_to_float` image. -/
theorem c4_frame_effects (df : DataFrame) (c : String) (rt tbt : ℤ) :
    (win_data df c rt tbt).1 = df ∧ (plot_bar_wins df c).1 = df ∧
    ((c = "ForecastPrice" ∨ c = "StartingPrice") →
      (calculate_accuracy df c).1 = applyCol df c oddsCellConv) := by
  refine ⟨rfl, rfl, fun hc => ?_⟩
  have hguard : ¬(c ≠ "ForecastPrice" ∧ c ≠ "StartingPrice") := by
    rcases hc with h | h <;> simp [h]
  simp [calculate_accuracy, hguard]

/-- C4 witness: the frame effects at a concrete table and column. -/
theorem c4_frame_effects_witness :
    (win_data dfC4 "ForecastPrice" 1 1).1 = dfC4 ∧
    (plot_bar_wins dfC4 "ForecastPrice").1 = dfC4 ∧
    (calculate_accuracy dfC4 "ForecastPrice").1 =
      applyCol dfC4 "ForecastPrice" oddsCellConv := by
  have h := c4_frame_effects dfC4 "ForecastPrice" 1 1
  exact ⟨h.1, h.2.1, h.2.2 (Or.inl rfl)⟩

/-- C5: with no `Won == 1` row the accuracy join yields zero pairs and the
code divides 0 by 0 — the numpy scalar division returns NaN (no exception,
but no reported "no data" outcome either): the call prints `nan%`. A
`win_data` call where no group passes the race threshold prints four empty
tables, again with no explicit "no data" report. -/
theorem c5_zero_pairs_nan_output :
    (calculate_accuracy dfC5 "ForecastPrice").2 =
      AccOut.accuracy 0 0 PFloat.nan "nan%" ∧
    (win_data dfC5 "HorseID" 1000 1).2 = WinOut.report [] [] [] [] := by
  with_unfolding_all decide

/-- C6 counterexample: `string_odds_to_float` can return a float that is not
finite — Python's `float` accepts `'inf'`, so `'inf/1'` gives `inf`, which
is neither a finite float nor the `None` marker. -/
theorem c6_nonfinite_result :
    string_odds_to_float (strC "inf/1") = some PFloat.inf ∧
    PFloat.inf.isFinite = false := by
  with_unfolding_all decide

/-- C6 (amended): `string_odds_to_float` is total on strings and never
propagates an exception: whenever its `try` body produces a value the
function returns it, and whenever the body raises (malformed split, parse
failure, division by zero) the function returns the `None` marker. The
value itself may be any float — finite, infinite, or NaN. -/
theorem c6_total_no_raise (s : String) :
    (∃ v, sofBody s = .ok v ∧ string_odds_to_float (some (.str s)) = some v) ∨
    (∃ e, sofBody s = .error e ∧ string_odds_to_float (some (.str s)) = none) := by
  cases h : sofBody s with
  | ok v => exact Or.inl ⟨v, rfl, by simp [string_odds_to_float, h]⟩
  | error e => exact Or.inr ⟨e, rfl, by simp [string_odds_to_float, h]⟩

/-- C7: on a grouping column with groups `A` (3 wins over 10 distinct races)
and `B` (1 win over 2 distinct races) and race threshold 2, `win_data`
computes proportional win rates 3/10 and 1/2, and with `top_bottom_threshold
= 1` reports `B` as the top-1 group and `A` as the bottom-1 group (the
best/worst equality filters agree). -/
theorem c7_win_data_example :
    winAggRows dfC7 "Sex" 2 =
      [(.str "A", .finite (3 / 10), 10), (.str "B", .finite (1 / 2), 2)] ∧
    (win_data dfC7 "Sex" 2 1).2 =
      WinOut.report
        [(.str "B", .finite (1 / 2), 2)] [(.str "B", .finite (1 / 2), 2)]
        [(.str "A", .finite (3 / 10), 10)] [(.str "A", .finite (3 / 10), 10)] := by
  with_unfolding_all decide

/-- C8: a string of the shape `digits/digits` (the conversion's own output
format) never matches the `'%d-%b'` pattern — there is no `'-'` to split on
— so `convert_dates_to_odds` passes it through unchanged, and applying the
conversion twice equals applying it once. -/
theorem c8_dm_passthrough_idempotent (s : String) (ds ms : List Char)
    (hsplit : s.data = ds ++ '/' :: ms)
    (hds : ∀ ch ∈ ds, ch.isDigit = true) (hms : ∀ ch ∈ ms, ch.isDigit = true) :
    parseDM s.data = none ∧
    convert_dates_to_odds (some (.str s)) = some (.str s) ∧
    convert_dates_to_odds (convert_dates_to_odds (some (.str s))) =
      convert_dates_to_odds (some (.str s)) := by
  have hdash : '-' ∉ s.data := by
    rw [hsplit]
    intro hmem
    rcases List.mem_append.mp hmem with h | h
    · have := hds _ h
      exact absurd this (by decide)
    · rcases List.mem_cons.mp h with h | h
      · exact absurd h (by decide)
      · have := hms _ h
        exact absurd this (by decide)
  have hp : parseDM s.data = none := by
    unfold parseDM
    rw [splitOnChar_no_sep _ _ hdash]
  have h2 : convert_dates_to_odds (some (.str s)) = some (.str s) := by
    simp [convert_dates_to_odds, convDatesStr, hp]
  refine ⟨hp, h2, ?_⟩
  rw [h2, h2]

/-- C8 witness: the pass-through and idempotence at the concrete string
`"3/5"`. -/
theorem c8_dm_passthrough_idempotent_witness :
    ("3/5".data = ['3'] ++ '/' :: ['5']) ∧
    (parseDM "3/5".data = none ∧
     convert_dates_to_odds (some (.str "3/5")) = some (.str "3/5") ∧
     convert_dates_to_odds (convert_dates_to_odds (some (.str "3/5"))) =
       convert_dates_to_odds (some (.str "3/5"))) :=
  ⟨by decide,
   c8_dm_passthrough_idempotent "3/5" ['3'] ['5'] (by decide) (by decide) (by decide)⟩

/-- C3 counterexample: a fully missing `ForecastPrice` column is turned into
the string `'nan'` by the odds conversion before missing counts are taken,
so `clean_data` returns normally and the returned table still contains a
column whose values were all missing in the input. -/
theorem c3_full_null_column_survives :
    missingCount dfC3 "ForecastPrice" = dfC3.rows.length ∧
    dfC3.rows.length = 1 ∧
    clean_data dfC3 = .ok (convertOddsCols dfC3) ∧
    "ForecastPrice" ∈ (convertOddsCols dfC3).cols := by
  with_unfolding_all decide

/-- C9 counterexample: a one-row table whose only fully-empty column is
`ForecastPrice` — the conversion fills it with the string `'nan'` before
counts are taken, so nothing is dropped and `clean_data` returns normally
instead of raising `KeyError`. -/
theorem c9_small_table_returns_ok :
    dfC9.rows.length < 205 ∧
    missingCount dfC9 "ForecastPrice" = dfC9.rows.length ∧
    clean_data dfC9 = .ok (convertOddsCols dfC9) := by
  with_unfolding_all decide

/-- C10 counterexample: a row whose odds were originally missing can still
be dropped — here the first row also misses `RaceID` (a considered column),
so cleaning removes it even though its missing `ForecastPrice` was already
the non-null string `'nan'`. -/
theorem c10_missing_odds_row_dropped :
    lookupCell (dfC10.rows.getD 0 []) "ForecastPrice" = none ∧
    dfC10.rows.length = 2 ∧
    clean_data dfC10 =
      .ok ⟨["RaceID", "ForecastPrice", "StartingPrice"],
           [[("RaceID", strC "1"), ("ForecastPrice", strC "1/2"),
             ("StartingPrice", strC "1/2")]]⟩ := by
  with_unfolding_all decide

/-- Boolean equality from the two-sided truth condition. -/
theorem bool_eq_of_iff {a b : Bool} (h : a = true ↔ b = true) : a = b := by
  cases a <;> cases b <;> simp_all

/-- What a normal return of `clean_data` looks like: the result is the
`dropna` of the column-dropped converted frame, the two odds columns were
present, and every considered column survived the column drop. -/
theorem clean_data_ok_shape (df out : DataFrame) (h : clean_data df = .ok out) :
    out = dropnaSubset (cleanDf2 df) (cleanConsider (convertOddsCols df)) ∧
    ("ForecastPrice" ∈ df.cols ∧ "StartingPrice" ∈ df.cols) ∧
    ((cleanConsider (convertOddsCols df)).all
      (fun c => decide (c ∈ (cleanDf2 df).cols))) = true := by
  unfold clean_data at h
  by_cases h1 : "ForecastPrice" ∈ df.cols ∧ "StartingPrice" ∈ df.cols
  · rw [if_pos h1] at h
    by_cases h2 : ((cleanConsider (convertOddsCols df)).all
        (fun c => decide (c ∈ (cleanDf2 df).cols))) = true
    · rw [if_pos h2] at h
      exact ⟨(Except.ok.inj h).symm, h1, h2⟩
    · rw [if_neg h2] at h
      exact absurd h (by simp)
  · rw [if_neg h1] at h
    exact absurd h (by simp)

/-- C3 (amended): when `clean_data` returns normally, no column whose
POST-CONVERSION missing count equals the row count remains (the counts are
taken after the odds conversion, not on the raw input), and every column
whose post-conversion missing count is below 205 is null-free in the
result. -/
theorem c3_clean_invariants (df out : DataFrame) (h : clean_data df = .ok out) :
    (∀ c, missingCount (convertOddsCols df) c = (convertOddsCols df).rows.length →
      c ∉ out.cols) ∧
    (∀ c, c ∈ (convertOddsCols df).cols →
      missingCount (convertOddsCols df) c < 205 → missingCount out c = 0) := by
  obtain ⟨rfl, -, -⟩ := clean_data_ok_shape df out h
  constructor
  · intro c hc hmem
    change c ∈ (convertOddsCols df).cols.filter
      (fun x => decide (x ∉ cleanDrop (convertOddsCols df))) at hmem
    have hm := List.mem_filter.mp hmem
    have hdropmem : c ∈ cleanDrop (convertOddsCols df) :=
      List.mem_filter.mpr ⟨hm.1, by simp [hc]⟩
    have := of_decide_eq_true hm.2
    exact this hdropmem
  · intro c hccol hlt
    have hcons : c ∈ cleanConsider (convertOddsCols df) :=
      List.mem_filter.mpr ⟨hccol, by simp [hlt]⟩
    unfold missingCount
    apply List.countP_eq_zero.mpr
    intro r hr
    change r ∈ (cleanDf2 df).rows.filter _ at hr
    have hall := (List.mem_filter.mp hr).2
    have := List.all_eq_true.mp hall c hcons
    simp only [Bool.not_eq_eq_eq_not, Bool.not_true] at this
    simp [this]

/-- C3 witness: the invariants at a concrete table (one row dropped for a
missing considered value). -/
theorem c3_clean_invariants_witness :
    clean_data dfC3w = .ok cleanedC3w ∧
    ((∀ c, missingCount (convertOddsCols dfC3w) c =
        (convertOddsCols dfC3w).rows.length → c ∉ cleanedC3w.cols) ∧
     (∀ c, c ∈ (convertOddsCols dfC3w).cols →
        missingCount (convertOddsCols dfC3w) c < 205 →
        missingCount cleanedC3w c = 0)) :=
  ⟨by with_unfolding_all decide,
   c3_clean_invariants dfC3w cleanedC3w (by with_unfolding_all decide)⟩

/-- C9 (amended): on a table with fewer than 205 rows, an odds column
present, and some column that is still fully missing AFTER the odds
conversion (so any fully-empty column other than the two odds columns),
that column is both dropped and below the 205 threshold, lands in the
`dropna` subset after its removal, and `clean_data` raises `KeyError`. -/
theorem c9_keyerror_on_post_conversion_empty (df : DataFrame)
    (hF : "ForecastPrice" ∈ df.cols) (hS : "StartingPrice" ∈ df.cols)
    (hlen : df.rows.length < 205) (c : String) (hc : c ∈ df.cols)
    (hfull : missingCount (convertOddsCols df) c = df.rows.length) :
    clean_data df = .error "KeyError: dropna subset column not in frame" := by
  have hcols : (convertOddsCols df).cols = df.cols := rfl
  have hrows : (convertOddsCols df).rows.length = df.rows.length := by
    simp [convertOddsCols, applyCol]
  have hdrop : c ∈ cleanDrop (convertOddsCols df) := by
    apply List.mem_filter.mpr
    refine ⟨by rw [hcols]; exact hc, ?_⟩
    simp only [decide_eq_true_eq]
    rw [hfull, hrows]
  have hcons : c ∈ cleanConsider (convertOddsCols df) := by
    apply List.mem_filter.mpr
    refine ⟨by rw [hcols]; exact hc, ?_⟩
    simp only [decide_eq_true_eq]
    rw [hfull]
    exact hlen
  have hnot : c ∉ (cleanDf2 df).cols := by
    intro hmem
    change c ∈ (convertOddsCols df).cols.filter
      (fun x => decide (x ∉ cleanDrop (convertOddsCols df))) at hmem
    have := (List.mem_filter.mp hmem).2
    rw [decide_eq_true_eq] at this
    exact this hdrop
  have hall : ((cleanConsider (convertOddsCols df)).all
      (fun x => decide (x ∈ (cleanDf2 df).cols))) = false := by
    cases hb : ((cleanConsider (convertOddsCols df)).all
        (fun x => decide (x ∈ (cleanDf2 df).cols))) with
    | false => rfl
    | true =>
        have := List.all_eq_true.mp hb c hcons
        rw [decide_eq_true_eq] at this
        exact absurd this hnot
  unfold clean_data
  rw [if_pos ⟨hF, hS⟩, hall]
  simp

/-- C9 witness: the `KeyError` at a concrete one-row table whose `Notes`
column is fully missing. -/
theorem c9_keyerror_witness :
    ("ForecastPrice" ∈ dfC9w.cols ∧ "StartingPrice" ∈ dfC9w.cols ∧
     dfC9w.rows.length < 205 ∧ "Notes" ∈ dfC9w.cols ∧
     missingCount (convertOddsCols dfC9w) "Notes" = dfC9w.rows.length) ∧
    clean_data dfC9w = .error "KeyError: dropna subset column not in frame" :=
  ⟨by with_unfolding_all decide,
   c9_keyerror_on_post_conversion_empty dfC9w (by decide) (by decide) (by decide)
     "Notes" (by decide) (by with_unfolding_all decide)⟩

/-- C2 counterexample: on a table whose odds column is entirely
unparseable (the string `'nan'` — exactly what `clean_data` stores for a
missing odds value) and that has a `Won = 1` row, every `apply` result is
`None`, pandas keeps the object dtype, and line 162's comparison raises
`TypeError`: the call prints no accuracy, refuting the claim's "for every
table ... prints accuracy = correct pairs / total pairs". -/
theorem c2_raises_on_unparseable_column :
    (convertedOdds dfC2x "ForecastPrice").all (fun v => decide (v = none)) = true ∧
    (calculate_accuracy dfC2x "ForecastPrice").2 =
      AccOut.raised "TypeError: object-dtype None comparison" ∧
    ((calculate_accuracy dfC2x "ForecastPrice").2).printedLine = none := by
  with_unfolding_all decide

/-- C2 (amended): on a table holding `RaceID`, `HorseID`, `Won` and the
supported odds column, and whose converted odds column does not trigger
the object-dtype `TypeError` (some value parses, or no pair is formed),
`calculate_accuracy`'s merge produces exactly the claim's winner/runner
pairs — every `Won = 1` row against every row of the same race, the winner
row itself included — the correct count is exactly the pairs with winner's
converted value `<=` the runner's, and the printed line is `correct/total`
formatted as a two-decimal percentage (the division is the numpy scalar
division; it is a genuine rational ratio whenever at least one pair
exists). Absent columns raise `KeyError` instead, and the all-`None` case
raises `TypeError`. -/
theorem c2_accuracy_join_and_ratio (df : DataFrame) (c : String)
    (hc : c = "ForecastPrice" ∨ c = "StartingPrice")
    (hcol : c ∈ df.cols) (hWon : "Won" ∈ df.cols)
    (hRace : "RaceID" ∈ df.cols) (hHorse : "HorseID" ∈ df.cols)
    (hok : accTypeError df c = false) :
    (calculate_accuracy df c).2 =
      AccOut.accuracy (specCorrect (applyCol df c oddsCellConv) c)
        ((specPairs (applyCol df c oddsCellConv) c).length)
        (sdiv (.finite (specCorrect (applyCol df c oddsCellConv) c : ℚ))
          (.finite ((specPairs (applyCol df c oddsCellConv) c).length : ℚ)))
        (formatPct (sdiv (.finite (specCorrect (applyCol df c oddsCellConv) c : ℚ))
          (.finite ((specPairs (applyCol df c oddsCellConv) c).length : ℚ)))) ∧
    (∀ w ∈ specWinners (applyCol df c oddsCellConv),
      (lookupCell w c, lookupCell w c) ∈ specPairs (applyCol df c oddsCellConv) c) ∧
    ((specPairs (applyCol df c oddsCellConv) c).length ≠ 0 →
      sdiv (.finite (specCorrect (applyCol df c oddsCellConv) c : ℚ))
          (.finite ((specPairs (applyCol df c oddsCellConv) c).length : ℚ)) =
        .finite ((specCorrect (applyCol df c oddsCellConv) c : ℚ) /
          ((specPairs (applyCol df c oddsCellConv) c).length : ℚ))) := by
  have hpairs : ∀ d : DataFrame, accPairs d c = specPairs d c := by
    intro d
    unfold accPairs specPairs specWinners specSameRace
    exact congrArg _ (funext fun w => filterMap_ite_eq_map_filter _ _ _)
  refine ⟨?_, ?_, ?_⟩
  · have hg : ¬(c ≠ "ForecastPrice" ∧ c ≠ "StartingPrice") := by
      rcases hc with rfl | rfl <;> simp
    have h1 : ¬(c ∉ df.cols) := not_not_intro hcol
    have h2 : ¬("Won" ∉ df.cols) := not_not_intro hWon
    have h3 : ¬("RaceID" ∉ df.cols ∨ "HorseID" ∉ df.cols) := by
      rintro (h | h)
      · exact h hRace
      · exact h hHorse
    have h4 : ¬(accTypeError df c = true) := by simp [hok]
    simp only [calculate_accuracy, if_neg hg, accMainOut, if_neg h1, if_neg h2,
      if_neg h3, if_neg h4, accOut, hpairs, specCorrect]
  · intro w hw
    have hwrow : w ∈ (applyCol df c oddsCellConv).rows :=
      (List.mem_filter.mp (show w ∈ (applyCol df c oddsCellConv).rows.filter wonIsOne
        from hw)).1
    unfold specPairs
    apply List.mem_flatMap.mpr
    refine ⟨w, hw, ?_⟩
    apply List.mem_map.mpr
    refine ⟨w, ?_, rfl⟩
    exact List.mem_filter.mpr ⟨hwrow, by simp [specSameRace]⟩
  · intro hne
    have hq : ((specPairs (applyCol df c oddsCellConv) c).length : ℚ) ≠ 0 := by
      exact_mod_cast hne
    simp [sdiv, hq]

/-- C2 witness: the join and ratio at the spec's two-race example — 4 pairs,
3 correct (both self-pairs, the race-1 cross pair, but not the race-2 cross
pair), printed `75.00%`. -/
theorem c2_accuracy_join_and_ratio_witness :
    (("ForecastPrice" = "ForecastPrice" ∨ "ForecastPrice" = "StartingPrice") ∧
     "ForecastPrice" ∈ dfC2.cols ∧ "Won" ∈ dfC2.cols ∧
     "RaceID" ∈ dfC2.cols ∧ "HorseID" ∈ dfC2.cols ∧
     accTypeError dfC2 "ForecastPrice" = false) ∧
    (calculate_accuracy dfC2 "ForecastPrice").2 =
      AccOut.accuracy 3 4 (.finite (3 / 4)) "75.00%" ∧
    ((calculate_accuracy dfC2 "ForecastPrice").2 =
      AccOut.accuracy (specCorrect (applyCol dfC2 "ForecastPrice" oddsCellConv) "ForecastPrice")
        ((specPairs (applyCol dfC2 "ForecastPrice" oddsCellConv) "ForecastPrice").length)
        (sdiv (.finite (specCorrect (applyCol dfC2 "ForecastPrice" oddsCellConv) "ForecastPrice" : ℚ))
          (.finite ((specPairs (applyCol dfC2 "ForecastPrice" oddsCellConv) "ForecastPrice").length : ℚ)))
        (formatPct (sdiv (.finite (specCorrect (applyCol dfC2 "ForecastPrice" oddsCellConv) "ForecastPrice" : ℚ))
          (.finite ((specPairs (applyCol dfC2 "ForecastPrice" oddsCellConv) "ForecastPrice").length : ℚ))))) :=
  ⟨⟨Or.inl rfl, by decide, by decide, by decide, by decide, by with_unfolding_all decide⟩,
   by with_unfolding_all decide,
   (c2_accuracy_join_and_ratio dfC2 "ForecastPrice" (Or.inl rfl) (by decide) (by decide)
     (by decide) (by decide) (by with_unfolding_all decide)).1⟩

/-- C10 (amended): `clean_data` converts the odds columns BEFORE taking
missing counts, and the conversion turns a null entry into the string
`'nan'`. Hence, on any well-formed table holding the two odds columns: both
odds columns count zero missing values; whenever `clean_data` returns
normally they are still present in the result; every surviving row is the
transform of an input row in which an originally missing odds value has
become the non-null string `'nan'`; and the row-dropping decision depends
only on the non-odds considered columns (a row is never dropped on account
of missing odds — though it can still be dropped for other missing
values). -/
theorem c10_odds_survive_cleaning (df : DataFrame) (hWF : RowsWF df)
    (hF : "ForecastPrice" ∈ df.cols) (hS : "StartingPrice" ∈ df.cols) :
    missingCount (convertOddsCols df) "ForecastPrice" = 0 ∧
    missingCount (convertOddsCols df) "StartingPrice" = 0 ∧
    (∀ out, clean_data df = .ok out →
      ("ForecastPrice" ∈ out.cols ∧ "StartingPrice" ∈ out.cols) ∧
      (∀ r' ∈ out.rows, ∃ r ∈ df.rows,
        r' = dropRowCols (cleanDrop (convertOddsCols df))
          (applyRow "StartingPrice" convert_dates_to_odds
            (applyRow "ForecastPrice" convert_dates_to_odds r)) ∧
        (lookupCell r "ForecastPrice" = none →
          lookupCell r' "ForecastPrice" = some (.str "nan")) ∧
        (lookupCell r "StartingPrice" = none →
          lookupCell r' "StartingPrice" = some (.str "nan"))) ∧
      out.rows = (cleanDf2 df).rows.filter (fun r =>
        ((cleanConsider (convertOddsCols df)).filter
          (fun x => decide (¬(x = "ForecastPrice" ∨ x = "StartingPrice")))).all
          (fun x => !cellIsNull (lookupCell r x)))) := by
  have hFPSP : ("ForecastPrice" : String) ≠ "StartingPrice" := by decide
  have hrowsshape : (convertOddsCols df).rows
      = df.rows.map (fun r => applyRow "StartingPrice" convert_dates_to_odds
          (applyRow "ForecastPrice" convert_dates_to_odds r)) := by
    show (df.rows.map (applyRow "ForecastPrice" convert_dates_to_odds)).map
        (applyRow "StartingPrice" convert_dates_to_odds) = _
    rw [List.map_map]
    rfl
  have hlookFP : ∀ r ∈ df.rows,
      lookupCell (applyRow "StartingPrice" convert_dates_to_odds
        (applyRow "ForecastPrice" convert_dates_to_odds r)) "ForecastPrice"
      = convert_dates_to_odds (lookupCell r "ForecastPrice") := by
    intro r hr
    rw [lookup_applyRow_ne _ _ _ _ hFPSP]
    exact lookup_applyRow_self _ _ _ (by rw [hWF r hr]; exact hF)
  have hlookSP : ∀ r ∈ df.rows,
      lookupCell (applyRow "StartingPrice" convert_dates_to_odds
        (applyRow "ForecastPrice" convert_dates_to_odds r)) "StartingPrice"
      = convert_dates_to_odds (lookupCell r "StartingPrice") := by
    intro r hr
    rw [lookup_applyRow_self _ _ _ (by rw [keys_applyRow, hWF r hr]; exact hS)]
    rw [lookup_applyRow_ne _ _ _ _ hFPSP.symm]
  have hmcFP : missingCount (convertOddsCols df) "ForecastPrice" = 0 := by
    unfold missingCount
    apply List.countP_eq_zero.mpr
    intro r1 hr1
    rw [hrowsshape] at hr1
    obtain ⟨r, hr, rfl⟩ := List.mem_map.mp hr1
    simp [hlookFP r hr, convert_not_null]
  have hmcSP : missingCount (convertOddsCols df) "StartingPrice" = 0 := by
    unfold missingCount
    apply List.countP_eq_zero.mpr
    intro r1 hr1
    rw [hrowsshape] at hr1
    obtain ⟨r, hr, rfl⟩ := List.mem_map.mp hr1
    simp [hlookSP r hr, convert_not_null]
  refine ⟨hmcFP, hmcSP, ?_⟩
  intro out h
  obtain ⟨rfl, -, hall⟩ := clean_data_ok_shape df out h
  have hFcons : "ForecastPrice" ∈ cleanConsider (convertOddsCols df) :=
    List.mem_filter.mpr ⟨hF, by simp [hmcFP]⟩
  have hScons : "StartingPrice" ∈ cleanConsider (convertOddsCols df) :=
    List.mem_filter.mpr ⟨hS, by simp [hmcSP]⟩
  have hFdf2 : "ForecastPrice" ∈ (cleanDf2 df).cols := by
    have := List.all_eq_true.mp hall _ hFcons
    rwa [decide_eq_true_eq] at this
  have hSdf2 : "StartingPrice" ∈ (cleanDf2 df).cols := by
    have := List.all_eq_true.mp hall _ hScons
    rwa [decide_eq_true_eq] at this
  have hFnotdrop : "ForecastPrice" ∉ cleanDrop (convertOddsCols df) := by
    have := (List.mem_filter.mp (show "ForecastPrice" ∈
      (convertOddsCols df).cols.filter
        (fun x => decide (x ∉ cleanDrop (convertOddsCols df))) from hFdf2)).2
    rwa [decide_eq_true_eq] at this
  have hSnotdrop : "StartingPrice" ∉ cleanDrop (convertOddsCols df) := by
    have := (List.mem_filter.mp (show "StartingPrice" ∈
      (convertOddsCols df).cols.filter
        (fun x => decide (x ∉ cleanDrop (convertOddsCols df))) from hSdf2)).2
    rwa [decide_eq_true_eq] at this
  refine ⟨⟨hFdf2, hSdf2⟩, ?_, ?_⟩
  · intro r' hr'
    have hr'' : r' ∈ (cleanDf2 df).rows :=
      (List.mem_filter.mp (show r' ∈ (cleanDf2 df).rows.filter _ from hr')).1
    have hr3 : r' ∈ (convertOddsCols df).rows.map
        (dropRowCols (cleanDrop (convertOddsCols df))) := hr''
    rw [hrowsshape, List.map_map] at hr3
    obtain ⟨r, hr, rfl⟩ := List.mem_map.mp hr3
    refine ⟨r, hr, rfl, ?_, ?_⟩
    · intro hnone
      show lookupCell (dropRowCols (cleanDrop (convertOddsCols df))
        (applyRow "StartingPrice" convert_dates_to_odds
          (applyRow "ForecastPrice" convert_dates_to_odds r))) "ForecastPrice" = _
      rw [lookup_dropRowCols _ _ _ hFnotdrop, hlookFP r hr, hnone]
      rfl
    · intro hnone
      show lookupCell (dropRowCols (cleanDrop (convertOddsCols df))
        (applyRow "StartingPrice" convert_dates_to_odds
          (applyRow "ForecastPrice" convert_dates_to_odds r))) "StartingPrice" = _
      rw [lookup_dropRowCols _ _ _ hSnotdrop, hlookSP r hr, hnone]
      rfl
  · show (cleanDf2 df).rows.filter _ = (cleanDf2 df).rows.filter _
    apply List.filter_congr
    intro x hx
    have hx3 : x ∈ (convertOddsCols df).rows.map
        (dropRowCols (cleanDrop (convertOddsCols df))) := hx
    rw [hrowsshape, List.map_map] at hx3
    obtain ⟨r, hr, rfl⟩ := List.mem_map.mp hx3
    have hxFP : cellIsNull (lookupCell (dropRowCols (cleanDrop (convertOddsCols df))
        (applyRow "StartingPrice" convert_dates_to_odds
          (applyRow "ForecastPrice" convert_dates_to_odds r))) "ForecastPrice") = false := by
      rw [lookup_dropRowCols _ _ _ hFnotdrop, hlookFP r hr]
      exact convert_not_null _
    have hxSP : cellIsNull (lookupCell (dropRowCols (cleanDrop (convertOddsCols df))
        (applyRow "StartingPrice" convert_dates_to_odds
          (applyRow "ForecastPrice" convert_dates_to_odds r))) "StartingPrice") = false := by
      rw [lookup_dropRowCols _ _ _ hSnotdrop, hlookSP r hr]
      exact convert_not_null _
    apply bool_eq_of_iff
    simp only [List.all_eq_true]
    constructor
    · intro hall2 cc hcc
      exact hall2 cc (List.mem_filter.mp hcc).1
    · intro hpart cc hcc
      by_cases hco : cc = "ForecastPrice" ∨ cc = "StartingPrice"
      · rcases hco with rfl | rfl
        · simp [hxFP]
        · simp [hxSP]
      · exact hpart cc (List.mem_filter.mpr ⟨hcc, by simpa using hco⟩)

/-- C10 witness: the odds-survival facts at a concrete two-row table whose
first row has an originally missing `ForecastPrice` and survives cleaning. -/
theorem c10_odds_survive_cleaning_witness :
    (RowsWF dfC10w ∧ "ForecastPrice" ∈ dfC10w.cols ∧ "StartingPrice" ∈ dfC10w.cols) ∧
    (missingCount (convertOddsCols dfC10w) "ForecastPrice" = 0 ∧
     missingCount (convertOddsCols dfC10w) "StartingPrice" = 0 ∧
     (∀ out, clean_data dfC10w = .ok out →
       ("ForecastPrice" ∈ out.cols ∧ "StartingPrice" ∈ out.cols) ∧
       (∀ r' ∈ out.rows, ∃ r ∈ dfC10w.rows,
         r' = dropRowCols (cleanDrop (convertOddsCols dfC10w))
           (applyRow "StartingPrice" convert_dates_to_odds
             (applyRow "ForecastPrice" convert_dates_to_odds r)) ∧
         (lookupCell r "ForecastPrice" = none →
           lookupCell r' "ForecastPrice" = some (.str "nan")) ∧
         (lookupCell r "StartingPrice" = none →
           lookupCell r' "StartingPrice" = some (.str "nan"))) ∧
       out.rows = (cleanDf2 dfC10w).rows.filter (fun r =>
         ((cleanConsider (convertOddsCols dfC10w)).filter
           (fun x => decide (¬(x = "ForecastPrice" ∨ x = "StartingPrice")))).all
           (fun x => !cellIsNull (lookupCell r x))))) :=
  ⟨⟨by unfold RowsWF; decide, by decide, by decide⟩,
   c10_odds_survive_cleaning dfC10w (by unfold RowsWF; decide) (by decide) (by decide)⟩
